import Mathlib

/-!
Verification of `jupyterhub/services/auth.py`: the `_ExpiringDict` TTL cache,
the `HubAuth` cookie-verification client, and the `HubAuthenticated` mixin
(`check_hub_user` / `get_current_user`).

Time is modelled as `ℚ` (the Python code reads `time.monotonic()`, a real
number, at each operation; here the current time is passed explicitly to each
operation).  Dictionaries are modelled as functions `String → Option _`
(`none` = key absent).  Raised exceptions become `Except` results, and the
network is a parameter: the response the Hub would give if contacted.  Each
operation's outcome also records how many network requests were issued, how
many cache reads were performed, and which log lines were emitted, so that
"zero network calls" claims are statable.
-/

namespace JupyterHubAuth

/-- Model of `_ExpiringDict`: `max_age`, and the two dicts `timestamps` and
`values` kept by `__init__`.  `max_age = 0` means "keep the cache forever". -/
structure ExpiringDict (α : Type) where
  max_age : ℚ
  timestamps : String → Option ℚ
  values : String → Option α

namespace ExpiringDict

/-- Embedding of `__init__(max_age)`: both dicts start empty. -/
def init (α : Type) (max_age : ℚ) : ExpiringDict α :=
  { max_age := max_age, timestamps := fun _ => none, values := fun _ => none }

/-- Embedding of `__setitem__`: store the value and record the current monotonic time. -/
def setItem (d : ExpiringDict α) (key : String) (value : α) (now : ℚ) :
    ExpiringDict α :=
  { d with
    timestamps := fun k => if k = key then some now else d.timestamps k,
    values := fun k => if k = key then some value else d.values k }

/-- Embedding of `_check_age`: if the key is registered and `max_age > 0` and
`timestamp + max_age < now`, pop the entry from both dicts; otherwise leave
the dict unchanged.  (When `values` has the key, `timestamps` has it too —
an invariant of `setItem`/eviction; the unreachable missing-timestamp case is
modelled as a no-op.) -/
def _check_age (d : ExpiringDict α) (key : String) (now : ℚ) : ExpiringDict α :=
  match d.values key with
  | none => d
  | some _ =>
    match d.timestamps key with
    | none => d
    | some timestamp =>
      if 0 < d.max_age ∧ timestamp + d.max_age < now then
        { d with
          values := fun k => if k = key then none else d.values k,
          timestamps := fun k => if k = key then none else d.timestamps k }
      else d

/-- Embedding of `__contains__`: run the age check, then test membership in `values`.
Returns the answer together with the (possibly evicted) dict. -/
def contains (d : ExpiringDict α) (key : String) (now : ℚ) :
    Bool × ExpiringDict α :=
  let d' := d._check_age key now
  ((d'.values key).isSome, d')

/-- Embedding of `get(key, default=None)`: run the age check, then return the stored value,
or `none` (Python's `default=None` on `KeyError`) when absent. -/
def get (d : ExpiringDict α) (key : String) (now : ℚ) :
    Option α × ExpiringDict α :=
  let d' := d._check_age key now
  (d'.values key, d')

end ExpiringDict

/-- One client-side operation on an `_ExpiringDict`, tagged with the monotonic
time at which it runs (used to state that, with `max_age = 0`, only an
overwrite can remove a stored value). -/
inductive CacheOp (α : Type) where
  | setOp (key : String) (value : α) (now : ℚ)
  | getOp (key : String) (now : ℚ)
  | containsOp (key : String) (now : ℚ)

/-- Whether an operation is a `__setitem__` on the given key. -/
def CacheOp.setsKey : CacheOp α → String → Bool
  | .setOp k _ _, key => k = key
  | _, _ => false

/-- Run one operation, keeping only the resulting dict state. -/
def runOp (d : ExpiringDict α) : CacheOp α → ExpiringDict α
  | .setOp k v t => d.setItem k v t
  | .getOp k t => (d.get k t).2
  | .containsOp k t => (d.contains k t).2

/-- Run a sequence of operations left to right. -/
def runOps (d : ExpiringDict α) : List (CacheOp α) → ExpiringDict α
  | [] => d
  | op :: ops => runOps (runOp d op) ops

/-- The user model returned by the Hub.  The only field the code reads is
`user_model['name']`; other JSON fields are passed through unexamined and are
not modelled. -/
structure UserModel where
  name : String
deriving DecidableEq

/-- What the network would do if `requests.get` were issued: raise
`requests.ConnectionError`, or return a response with a status code and a
decoded JSON body (the body is only consulted on the success path). -/
inductive HubResponse where
  | connError
  | resp (status : Nat) (body : UserModel)
deriving DecidableEq

/-- The distinct `HTTPError` raise sites of `user_for_cookie`, in source
order: connection failure (500), 403 → permission failure (500), 5xx →
upstream failure (502), other 4xx → failed check (500). -/
inductive HubAuthError where
  | connectionFailure
  | permissionFailure
  | upstreamFailure
  | authCheckFailure
deriving DecidableEq

/-- An `app_log` line, with its severity and message. -/
inductive LogEvent where
  | error (msg : String)
  | warning (msg : String)
  | debug (msg : String)
deriving DecidableEq

/-- Outcome of one `user_for_cookie` call: the returned value or raised error,
the cookie cache afterwards, the number of `requests.get` calls issued, the
number of `cookie_cache.get` reads performed, and the log lines emitted. -/
structure FetchOutcome where
  result : Except HubAuthError (Option UserModel)
  cache : ExpiringDict (Option UserModel)
  networkCalls : Nat
  cacheLookups : Nat
  logs : List LogEvent

/-- The body of `user_for_cookie` from the `try:` onward: issue the
`requests.get` (raising on `ConnectionError`), dispatch on the status code
(404 → `None`, 403/5xx/other-4xx → raise an `HTTPError` after logging, else
decode the body), then store the verdict in the cache and return it.
`lookups` carries the number of cache reads performed before this point. -/
def hub_request_and_store (cache : ExpiringDict (Option UserModel))
    (world : HubResponse) (now : ℚ) (encrypted_cookie : String)
    (lookups : Nat) : FetchOutcome :=
  match world with
  | .connError =>
    { result := .error .connectionFailure, cache := cache,
      networkCalls := 1, cacheLookups := lookups, logs := [] }
  | .resp status body =>
    if status = 404 then
      { result := .ok none,
        cache := cache.setItem encrypted_cookie none now,
        networkCalls := 1, cacheLookups := lookups, logs := [] }
    else if status = 403 then
      { result := .error .permissionFailure, cache := cache,
        networkCalls := 1, cacheLookups := lookups,
        logs := [.error "I do not have permission to verify cookies, my auth token may have expired"] }
    else if 500 ≤ status then
      { result := .error .upstreamFailure, cache := cache,
        networkCalls := 1, cacheLookups := lookups,
        logs := [.error "Upstream failure verifying auth token"] }
    else if 400 ≤ status then
      { result := .error .authCheckFailure, cache := cache,
        networkCalls := 1, cacheLookups := lookups,
        logs := [.warning "Failed to check authorization"] }
    else
      { result := .ok (some body),
        cache := cache.setItem encrypted_cookie (some body) now,
        networkCalls := 1, cacheLookups := lookups, logs := [] }

/-- Embedding of `HubAuth.user_for_cookie(encrypted_cookie, use_cache)`.  The cookie cache
(of type `_ExpiringDict`, holding `UserModel`-or-`None` verdicts) is passed in
and returned; `world` is what the network would answer; `now` is the current
monotonic time.  Mirrors the source: when `use_cache` is set, read the cache
and return the cached value only when it `is not None` (so a cached `None`
verdict falls through exactly like a miss); otherwise run
`hub_request_and_store`. -/
def user_for_cookie (cache : ExpiringDict (Option UserModel))
    (world : HubResponse) (now : ℚ) (encrypted_cookie : String)
    (use_cache : Bool) : FetchOutcome :=
  if use_cache then
    let r := cache.get encrypted_cookie now
    match r.1 with
    | some (some u) =>
      { result := .ok (some u), cache := r.2, networkCalls := 0,
        cacheLookups := 1, logs := [] }
    | _ => hub_request_and_store r.2 world now encrypted_cookie 1
  else hub_request_and_store cache world now encrypted_cookie 0

/-- Whether the cache lookup performed by `user_for_cookie` at time `now`
would miss — that is, would fall through to the network request.  Because of
the `cached is not None` test, both a genuinely absent/expired entry and a
cached `None` verdict count as a miss. -/
def cacheMiss (cache : ExpiringDict (Option UserModel)) (cookie : String)
    (now : ℚ) : Bool :=
  match (cache.get cookie now).1 with
  | some (some _) => false
  | _ => true

/-- A tornado handler, reduced to what `get_user` touches: the value
`handler.get_cookie(cookie_name)` would return (`none` = no such cookie), and
the `_cached_hub_user` attribute (`none` = attribute not set). -/
structure Handler where
  cookie : Option String
  _cached_hub_user : Option (Option UserModel)
deriving DecidableEq

/-- Python truthiness of `get_cookie`'s result: `None` and `""` are falsy. -/
def cookieTruthy : Option String → Bool
  | none => false
  | some c => c ≠ ""

/-- Outcome of one `HubAuth.get_user(handler)` call. -/
structure GetUserOutcome where
  result : Except HubAuthError (Option UserModel)
  handler : Handler
  cache : ExpiringDict (Option UserModel)
  networkCalls : Nat
  cacheLookups : Nat
  logs : List LogEvent

/-- Embedding of `HubAuth.get_user(handler)`: if `_cached_hub_user` is already set, return
it (no cache read, no network).  Otherwise set `_cached_hub_user = None`
first, read the cookie; if the cookie is truthy, call `user_for_cookie`
(with its default `use_cache=True`) and memoize whatever it returns — on a
raised error the memoized value stays `None`; if the cookie is falsy, log a
debug line and return `None`. -/
def get_user (handler : Handler) (cache : ExpiringDict (Option UserModel))
    (world : HubResponse) (now : ℚ) : GetUserOutcome :=
  match handler._cached_hub_user with
  | some u =>
    { result := .ok u, handler := handler, cache := cache,
      networkCalls := 0, cacheLookups := 0, logs := [] }
  | none =>
    let handler1 : Handler := { handler with _cached_hub_user := some none }
    match handler.cookie with
    | some c =>
      if c ≠ "" then
        let o := user_for_cookie cache world now c true
        match o.result with
        | .ok user_model =>
          { result := .ok user_model,
            handler := { handler1 with _cached_hub_user := some user_model },
            cache := o.cache, networkCalls := o.networkCalls,
            cacheLookups := o.cacheLookups, logs := o.logs }
        | .error e =>
          { result := .error e, handler := handler1, cache := o.cache,
            networkCalls := o.networkCalls, cacheLookups := o.cacheLookups,
            logs := o.logs }
      else
        { result := .ok none, handler := handler1, cache := cache,
          networkCalls := 0, cacheLookups := 0,
          logs := [.debug "No token cookie"] }
    | none =>
      { result := .ok none, handler := handler1, cache := cache,
        networkCalls := 0, cacheLookups := 0,
        logs := [.debug "No token cookie"] }

/-- The Python runtime error raised when `check_hub_user` evaluates
`user_model['name']` with `user_model = None`. -/
inductive PyError where
  | noneSubscript
deriving DecidableEq

/-- Embedding of `HubAuthenticated.check_hub_user(user_model)`, with `hub_users` the
handler's allow-list (`none` = unset).  `user_model` may be Python `None`:
with an unset allow-list it is returned unchanged, with a set allow-list the
subscript `user_model['name']` raises.  Returns the value together with the
emitted log lines. -/
def check_hub_user (hub_users : Option (List String))
    (user_model : Option UserModel) :
    Except PyError (Option UserModel × List LogEvent) :=
  match hub_users with
  | none => .ok (user_model, [])
  | some allowed =>
    match user_model with
    | none => .error .noneSubscript
    | some u =>
      if u.name ∈ allowed then .ok (some u, [])
      else .ok (none, [.warning ("Not allowing Hub user " ++ u.name)])

/-- A failure escaping `get_current_user`: either an `HTTPError` raised by
`user_for_cookie`, or a Python runtime error from `check_hub_user`. -/
inductive GateError where
  | auth (e : HubAuthError)
  | py (e : PyError)
deriving DecidableEq

/-- Outcome of one `HubAuthenticated.get_current_user()` call. -/
structure GateOutcome where
  result : Except GateError (Option UserModel)
  handler : Handler
  cache : ExpiringDict (Option UserModel)
  networkCalls : Nat
  cacheLookups : Nat
  logs : List LogEvent

/-- Whether the gate outcome is a Python runtime crash (the unguarded
`user_model['name']` subscript in `check_hub_user`). -/
def GateOutcome.hasPyCrash (o : GateOutcome) : Bool :=
  match o.result with
  | .error (.py _) => true
  | _ => false

/-- Embedding of `HubAuthenticated.get_current_user()`: resolve the user via
`hub_auth.get_user(self)`; if the result is falsy (`None`) return `None`
without calling `check_hub_user`; otherwise apply `check_hub_user`. -/
def get_current_user (handler : Handler) (hub_users : Option (List String))
    (cache : ExpiringDict (Option UserModel)) (world : HubResponse)
    (now : ℚ) : GateOutcome :=
  let o := get_user handler cache world now
  match o.result with
  | .error e =>
    { result := .error (.auth e), handler := o.handler, cache := o.cache,
      networkCalls := o.networkCalls, cacheLookups := o.cacheLookups,
      logs := o.logs }
  | .ok user_model =>
    match user_model with
    | none =>
      { result := .ok none, handler := o.handler, cache := o.cache,
        networkCalls := o.networkCalls, cacheLookups := o.cacheLookups,
        logs := o.logs }
    | some u =>
      match check_hub_user hub_users (some u) with
      | .error e =>
        { result := .error (.py e), handler := o.handler, cache := o.cache,
          networkCalls := o.networkCalls, cacheLookups := o.cacheLookups,
          logs := o.logs }
      | .ok (r, lgs) =>
        { result := .ok r, handler := o.handler, cache := o.cache,
          networkCalls := o.networkCalls, cacheLookups := o.cacheLookups,
          logs := o.logs ++ lgs }

/-- A cache (default `max_age = 300`, as `cookie_cache_max_age` defaults to
300) holding a cached negative verdict (`None`, from an earlier 404) for the
cookie value `"abc"`, stored at monotonic time 0. -/
def cachedNullCache : ExpiringDict (Option UserModel) :=
  (ExpiringDict.init (Option UserModel) 300).setItem "abc" none 0

/-! ## Helper lemmas about `_ExpiringDict` -/

/-- The `_check_age` step never changes `max_age`. -/
theorem check_age_max_age (d : ExpiringDict α) (key : String) (now : ℚ) :
    (d._check_age key now).max_age = d.max_age := by
  unfold ExpiringDict._check_age
  cases d.values key with
  | none => rfl
  | some v =>
    cases d.timestamps key with
    | none => rfl
    | some t =>
      by_cases h : 0 < d.max_age ∧ t + d.max_age < now
      · simp [h]
      · simp [h]

/-- The `_check_age` step only ever removes entries: a value present afterwards was
present before. -/
theorem check_age_values_le (d : ExpiringDict α) (key j : String) (now : ℚ)
    (v : α) (h : (d._check_age key now).values j = some v) :
    d.values j = some v := by
  unfold ExpiringDict._check_age at h
  cases hv : d.values key with
  | none => simpa [hv] using h
  | some w =>
    cases ht : d.timestamps key with
    | none => simpa [hv, ht] using h
    | some t =>
      by_cases hc : 0 < d.max_age ∧ t + d.max_age < now
      · simp only [hv, ht, if_pos hc] at h
        by_cases hj : j = key
        · simp [hj] at h
        · simpa [hj] using h
      · simpa [hv, ht, if_neg hc] using h

/-- When `max_age ≤ 0` (the source's `max_age = 0` case), `_check_age` is the
identity: nothing is ever evicted by age. -/
theorem check_age_of_nonpos (d : ExpiringDict α) (key : String) (now : ℚ)
    (h : d.max_age ≤ 0) : d._check_age key now = d := by
  unfold ExpiringDict._check_age
  cases d.values key with
  | none => rfl
  | some v =>
    cases d.timestamps key with
    | none => rfl
    | some t =>
      have hnc : ¬ (0 < d.max_age ∧ t + d.max_age < now) := by
        rintro ⟨h1, _⟩; exact absurd h (not_le.mpr h1)
      simp [hnc]

/-- With `max_age ≤ 0`, a single operation that is not a `__setitem__` on
`key` preserves the stored value and the `max_age`. -/
theorem runOp_preserves (d : ExpiringDict α) (op : CacheOp α) (key : String)
    (hma : d.max_age ≤ 0) (hop : op.setsKey key = false) :
    (runOp d op).values key = d.values key ∧ (runOp d op).max_age ≤ 0 := by
  cases op with
  | setOp k v t =>
    have hk : ¬ (key = k) := by
      simp only [CacheOp.setsKey, decide_eq_false_iff_not] at hop
      intro h; exact hop h.symm
    constructor
    · simp [runOp, ExpiringDict.setItem, hk]
    · simpa [runOp, ExpiringDict.setItem] using hma
  | getOp k t =>
    constructor
    · simp [runOp, ExpiringDict.get, check_age_of_nonpos d k t hma]
    · simpa [runOp, ExpiringDict.get, check_age_of_nonpos d k t hma] using hma
  | containsOp k t =>
    constructor
    · simp [runOp, ExpiringDict.contains, check_age_of_nonpos d k t hma]
    · simpa [runOp, ExpiringDict.contains, check_age_of_nonpos d k t hma] using hma

/-- With `max_age ≤ 0`, a sequence of operations none of which is a
`__setitem__` on `key` preserves the stored value. -/
theorem runOps_preserves (ops : List (CacheOp α)) (d : ExpiringDict α)
    (key : String) (hma : d.max_age ≤ 0)
    (hops : ∀ op ∈ ops, op.setsKey key = false) :
    (runOps d ops).values key = d.values key ∧ (runOps d ops).max_age ≤ 0 := by
  induction ops generalizing d with
  | nil => exact ⟨rfl, hma⟩
  | cons op ops ih =>
    have h1 := runOp_preserves d op key hma (hops op (List.mem_cons_self op ops))
    have h2 := ih (runOp d op) h1.2 (fun o ho => hops o (List.mem_cons_of_mem op ho))
    exact ⟨h2.1.trans h1.1, h2.2⟩

/-! ## Claim theorems -/

/-- Claim C2: for every `max_age > 0`, after `d[key] = v` at monotonic time
`T`, both `get` and `contains` report the entry present (with the stored
value) at every access time `now` with `now - T ≤ max_age`, and report it
absent — evicting it from the underlying dict — at every access time with
`now - T > max_age`. -/
theorem c2_ttl_expiry (α : Type) (d : ExpiringDict α) (key : String) (v : α)
    (T now : ℚ) (hpos : 0 < d.max_age) :
    ((now - T ≤ d.max_age →
        ((d.setItem key v T).get key now).1 = some v ∧
        ((d.setItem key v T).contains key now).1 = true) ∧
     (d.max_age < now - T →
        ((d.setItem key v T).get key now).1 = none ∧
        ((d.setItem key v T).contains key now).1 = false ∧
        ((d.setItem key v T).get key now).2.values key = none)) := by
  have hv : (d.setItem key v T).values key = some v := by
    simp [ExpiringDict.setItem]
  have ht : (d.setItem key v T).timestamps key = some T := by
    simp [ExpiringDict.setItem]
  have hma : (d.setItem key v T).max_age = d.max_age := rfl
  constructor
  · intro hle
    have hnc : ¬ (0 < (d.setItem key v T).max_age ∧
        T + (d.setItem key v T).max_age < now) := by
      rintro ⟨_, hlt⟩
      rw [hma] at hlt
      linarith
    have hid : (d.setItem key v T)._check_age key now = d.setItem key v T := by
      unfold ExpiringDict._check_age
      rw [hv, ht]
      simp [hnc]
    constructor
    · simp [ExpiringDict.get, hid, hv]
    · simp [ExpiringDict.contains, hid, hv]
  · intro hgt
    have hc : 0 < (d.setItem key v T).max_age ∧
        T + (d.setItem key v T).max_age < now := by
      rw [hma]; exact ⟨hpos, by linarith⟩
    have hev : ((d.setItem key v T)._check_age key now).values key = none := by
      unfold ExpiringDict._check_age
      rw [hv, ht]
      simp [hc]
    refine ⟨?_, ?_, ?_⟩
    · simp [ExpiringDict.get, hev]
    · simp [ExpiringDict.contains, hev]
    · simpa [ExpiringDict.get] using hev

/-- Witness for C2 at concrete inputs: `max_age = 300`, store at `T = 0`;
at `now = 300` the value is still served, at `now = 301` it is evicted. -/
theorem c2_ttl_expiry_witness :
    (0 < (ExpiringDict.init Nat 300).max_age) ∧
    ((((ExpiringDict.init Nat 300).setItem "k" 5 0).get "k" 300).1 = some 5 ∧
      (((ExpiringDict.init Nat 300).setItem "k" 5 0).contains "k" 300).1 = true) ∧
    ((((ExpiringDict.init Nat 300).setItem "k" 5 0).get "k" 301).1 = none ∧
      (((ExpiringDict.init Nat 300).setItem "k" 5 0).contains "k" 301).1 = false ∧
      (((ExpiringDict.init Nat 300).setItem "k" 5 0).get "k" 301).2.values "k" = none) := by
  have h300 := c2_ttl_expiry Nat (ExpiringDict.init Nat 300) "k" 5 0 300 (by norm_num [ExpiringDict.init])
  have h301 := c2_ttl_expiry Nat (ExpiringDict.init Nat 300) "k" 5 0 301 (by norm_num [ExpiringDict.init])
  exact ⟨by norm_num [ExpiringDict.init],
    h300.1 (by norm_num [ExpiringDict.init]),
    h301.2 (by norm_num [ExpiringDict.init])⟩

/-- Claim C3: with `max_age = 0`, no entry is ever evicted by age: a stored
value survives any sequence of `get`/`contains`/`set` operations at arbitrary
times, as long as none of them overwrites that key, and `get` still returns
it at every later access time. -/
theorem c3_no_expiry_when_zero (α : Type) (d : ExpiringDict α)
    (ops : List (CacheOp α)) (key : String) (v : α) (now : ℚ)
    (hma : d.max_age = 0) (hv : d.values key = some v)
    (hops : ∀ op ∈ ops, op.setsKey key = false) :
    (runOps d ops).values key = some v ∧
    ((runOps d ops).get key now).1 = some v := by
  have h := runOps_preserves ops d key (le_of_eq hma) hops
  have hval : (runOps d ops).values key = some v := h.1.trans hv
  refine ⟨hval, ?_⟩
  simp [ExpiringDict.get, check_age_of_nonpos _ key now h.2, hval]

/-- Witness for C3 at concrete inputs: `max_age = 0`, store `"k" ↦ 5` at time
0, then run a `get`, a `contains` and a `set` of another key at much later
times: the value is still there at time `10 ^ 6`. -/
theorem c3_no_expiry_when_zero_witness :
    ((ExpiringDict.init Nat 0).setItem "k" 5 0).max_age = 0 ∧
    ((ExpiringDict.init Nat 0).setItem "k" 5 0).values "k" = some 5 ∧
    (∀ op ∈ [CacheOp.getOp (α := Nat) "k" 1000, CacheOp.containsOp "k" 2000,
        CacheOp.setOp "j" 9 3000], op.setsKey "k" = false) ∧
    (runOps ((ExpiringDict.init Nat 0).setItem "k" 5 0)
        [CacheOp.getOp "k" 1000, CacheOp.containsOp "k" 2000,
         CacheOp.setOp "j" 9 3000]).values "k" = some 5 ∧
    ((runOps ((ExpiringDict.init Nat 0).setItem "k" 5 0)
        [CacheOp.getOp "k" 1000, CacheOp.containsOp "k" 2000,
         CacheOp.setOp "j" 9 3000]).get "k" 1000000).1 = some 5 := by
  have h := c3_no_expiry_when_zero Nat ((ExpiringDict.init Nat 0).setItem "k" 5 0)
    [CacheOp.getOp "k" 1000, CacheOp.containsOp "k" 2000, CacheOp.setOp "j" 9 3000]
    "k" 5 1000000 (by rfl) (by simp [ExpiringDict.setItem, ExpiringDict.init])
    (by decide)
  exact ⟨rfl, by simp [ExpiringDict.setItem, ExpiringDict.init], by decide, h.1, h.2⟩

/-! ## Helper lemmas about `user_for_cookie` -/

/-- The first component of `get` is the age-checked value. -/
theorem get_fst (d : ExpiringDict α) (k : String) (t : ℚ) :
    (d.get k t).1 = (d._check_age k t).values k := rfl

/-- The second component of `get` is the age-checked dict. -/
theorem get_snd (d : ExpiringDict α) (k : String) (t : ℚ) :
    (d.get k t).2 = d._check_age k t := rfl

/-- The `_check_age` step on an unregistered key is the identity. -/
theorem check_age_of_absent (d : ExpiringDict α) (k : String) (t : ℚ)
    (h : d.values k = none) : d._check_age k t = d := by
  unfold ExpiringDict._check_age
  rw [h]

/-- If the cache holds no positive verdict for `cookie` (no entry, or a
cached `None`), the same is true after any `_check_age`. -/
theorem no_positive_stays (cache : ExpiringDict (Option UserModel))
    (cookie : String) (now : ℚ)
    (h : cache.values cookie = none ∨ cache.values cookie = some none) :
    (cache._check_age cookie now).values cookie = none ∨
    (cache._check_age cookie now).values cookie = some none := by
  rcases hval : (cache._check_age cookie now).values cookie with _ | x
  · exact Or.inl rfl
  · have := check_age_values_le cache cookie cookie now x hval
    rcases h with h | h
    · rw [h] at this; cases this
    · rw [h] at this
      cases this
      exact Or.inr rfl

/-- If the cache holds no positive verdict for `cookie`, the lookup in
`user_for_cookie` misses at every access time. -/
theorem no_positive_miss (cache : ExpiringDict (Option UserModel))
    (cookie : String) (now : ℚ)
    (h : cache.values cookie = none ∨ cache.values cookie = some none) :
    cacheMiss cache cookie now = true := by
  unfold cacheMiss
  rw [get_fst]
  rcases no_positive_stays cache cookie now h with h' | h' <;> rw [h']

/-- On a miss (or with the cache bypassed), `user_for_cookie` reduces to
`hub_request_and_store` on the age-checked cache. -/
theorem user_for_cookie_miss_eq (cache : ExpiringDict (Option UserModel))
    (world : HubResponse) (now : ℚ) (cookie : String) (uc : Bool)
    (h : uc = false ∨ cacheMiss cache cookie now = true) :
    user_for_cookie cache world now cookie uc =
      if uc then
        hub_request_and_store (cache._check_age cookie now) world now cookie 1
      else hub_request_and_store cache world now cookie 0 := by
  cases uc with
  | false => rfl
  | true =>
    have hm : cacheMiss cache cookie now = true := by
      rcases h with h | h
      · cases h
      · exact h
    unfold cacheMiss at hm
    rw [get_fst] at hm
    unfold user_for_cookie
    rcases hval : (cache._check_age cookie now).values cookie with _ | x
    · simp [get_fst, get_snd, hval]
    · cases x with
      | none => simp [get_fst, get_snd, hval]
      | some u => rw [hval] at hm; simp at hm

/-- The `hub_request_and_store` step always issues exactly one network request. -/
theorem hub_request_networkCalls (cache : ExpiringDict (Option UserModel))
    (world : HubResponse) (now : ℚ) (cookie : String) (lookups : Nat) :
    (hub_request_and_store cache world now cookie lookups).networkCalls = 1 := by
  unfold hub_request_and_store
  cases world with
  | connError => rfl
  | resp status body => dsimp only; split_ifs <;> rfl

/-- Claim C4: on a transport-level connection failure, `user_for_cookie`
raises the connection-failure `HTTPError`, issues the one (failed) network
request, and writes nothing to the cache — the cache is at most age-checked —
so as long as no positive verdict was cached for that cookie, every
subsequent call with the same cookie issues the network request again. -/
theorem c4_connection_failure (cache : ExpiringDict (Option UserModel))
    (now : ℚ) (cookie : String) (uc : Bool)
    (h : cache.values cookie = none ∨ cache.values cookie = some none) :
    (user_for_cookie cache .connError now cookie uc).result =
      .error .connectionFailure ∧
    (user_for_cookie cache .connError now cookie uc).networkCalls = 1 ∧
    (user_for_cookie cache .connError now cookie uc).cache =
      (if uc then cache._check_age cookie now else cache) ∧
    ∀ (world' : HubResponse) (now' : ℚ) (uc' : Bool),
      (user_for_cookie (user_for_cookie cache .connError now cookie uc).cache
        world' now' cookie uc').networkCalls = 1 := by
  have hm := no_positive_miss cache cookie now h
  rw [user_for_cookie_miss_eq cache .connError now cookie uc (Or.inr hm)]
  have hcache : ((if uc then
      hub_request_and_store (cache._check_age cookie now) .connError now cookie 1
      else hub_request_and_store cache .connError now cookie 0).cache.values cookie = none ∨
      (if uc then
      hub_request_and_store (cache._check_age cookie now) .connError now cookie 1
      else hub_request_and_store cache .connError now cookie 0).cache.values cookie = some none) := by
    cases uc with
    | false => simpa [hub_request_and_store] using h
    | true => simpa [hub_request_and_store] using no_positive_stays cache cookie now h
  refine ⟨?_, ?_, ?_, ?_⟩
  · cases uc <;> rfl
  · cases uc <;> rfl
  · cases uc <;> rfl
  · intro world' now' uc'
    rw [user_for_cookie_miss_eq _ world' now' cookie uc'
      (Or.inr (no_positive_miss _ cookie now' hcache))]
    cases uc' <;> simp [hub_request_networkCalls]

/-- Witness for C4: empty cache with `max_age = 300`, connection failure at
time 0; the error is raised, nothing is cached, and a retry at time 5 issues
the network request again. -/
theorem c4_connection_failure_witness :
    ((ExpiringDict.init (Option UserModel) 300).values "abc" = none ∨
      (ExpiringDict.init (Option UserModel) 300).values "abc" = some none) ∧
    (user_for_cookie (ExpiringDict.init (Option UserModel) 300) .connError 0
      "abc" true).result = .error .connectionFailure ∧
    (user_for_cookie (ExpiringDict.init (Option UserModel) 300) .connError 0
      "abc" true).networkCalls = 1 ∧
    (user_for_cookie
      (user_for_cookie (ExpiringDict.init (Option UserModel) 300) .connError 0
        "abc" true).cache (.resp 404 ⟨"x"⟩) 5 "abc" true).networkCalls = 1 := by
  have h := c4_connection_failure (ExpiringDict.init (Option UserModel) 300)
    0 "abc" true (Or.inl rfl)
  exact ⟨Or.inl rfl, h.1, h.2.1, h.2.2.2 (.resp 404 ⟨"x"⟩) 5 true⟩

/-- Claim C5: on a miss (or with the cache bypassed), a 404 response makes
`user_for_cookie` return `None` and store `None` in the cache under the
cookie value, and a 200 response makes it return the decoded user model and
store it in the cache; either way exactly one network request is issued. -/
theorem c5_definitive_verdicts_cached (cache : ExpiringDict (Option UserModel))
    (now : ℚ) (cookie : String) (uc : Bool) (body : UserModel)
    (h : uc = false ∨ cacheMiss cache cookie now = true) :
    ((user_for_cookie cache (.resp 404 body) now cookie uc).result = .ok none ∧
     (user_for_cookie cache (.resp 404 body) now cookie uc).cache.values cookie =
       some none ∧
     (user_for_cookie cache (.resp 404 body) now cookie uc).cache.timestamps cookie =
       some now ∧
     (user_for_cookie cache (.resp 404 body) now cookie uc).networkCalls = 1) ∧
    ((user_for_cookie cache (.resp 200 body) now cookie uc).result =
       .ok (some body) ∧
     (user_for_cookie cache (.resp 200 body) now cookie uc).cache.values cookie =
       some (some body) ∧
     (user_for_cookie cache (.resp 200 body) now cookie uc).cache.timestamps cookie =
       some now ∧
     (user_for_cookie cache (.resp 200 body) now cookie uc).networkCalls = 1) := by
  rw [user_for_cookie_miss_eq cache (.resp 404 body) now cookie uc h,
    user_for_cookie_miss_eq cache (.resp 200 body) now cookie uc h]
  cases uc <;>
    simp [hub_request_and_store, ExpiringDict.setItem]

/-- Witness for C5: empty cache with `max_age = 300`, cookie `"abc"`, body
`{"name": "alice"}`: the 404 verdict is `None` and cached, the 200 verdict is
the record named `"alice"` and cached. -/
theorem c5_definitive_verdicts_cached_witness :
    ((true : Bool) = false ∨
      cacheMiss (ExpiringDict.init (Option UserModel) 300) "abc" 0 = true) ∧
    (user_for_cookie (ExpiringDict.init (Option UserModel) 300)
      (.resp 404 ⟨"alice"⟩) 0 "abc" true).result = .ok none ∧
    (user_for_cookie (ExpiringDict.init (Option UserModel) 300)
      (.resp 404 ⟨"alice"⟩) 0 "abc" true).cache.values "abc" = some none ∧
    (user_for_cookie (ExpiringDict.init (Option UserModel) 300)
      (.resp 200 ⟨"alice"⟩) 0 "abc" true).result = .ok (some ⟨"alice"⟩) ∧
    (user_for_cookie (ExpiringDict.init (Option UserModel) 300)
      (.resp 200 ⟨"alice"⟩) 0 "abc" true).cache.values "abc" =
      some (some ⟨"alice"⟩) ∧
    (UserModel.mk "alice").name = "alice" := by
  have h := c5_definitive_verdicts_cached (ExpiringDict.init (Option UserModel) 300)
    0 "abc" true ⟨"alice"⟩ (Or.inr rfl)
  exact ⟨Or.inr rfl, h.1.1, h.1.2.1, h.2.1, h.2.2.1, rfl⟩

/-- Claim C6: a 403 response makes `user_for_cookie` raise the
permission-failure `HTTPError` (it does not return `None`), log at error
severity, and store nothing in the cache for that cookie: if the cache held
no entry for the cookie before, it holds none afterwards. -/
theorem c6_forbidden_not_cached (cache : ExpiringDict (Option UserModel))
    (now : ℚ) (cookie : String) (uc : Bool) (body : UserModel)
    (h : cache.values cookie = none) :
    (user_for_cookie cache (.resp 403 body) now cookie uc).result =
      .error .permissionFailure ∧
    (user_for_cookie cache (.resp 403 body) now cookie uc).logs =
      [.error "I do not have permission to verify cookies, my auth token may have expired"] ∧
    (user_for_cookie cache (.resp 403 body) now cookie uc).cache.values cookie =
      none ∧
    (user_for_cookie cache (.resp 403 body) now cookie uc).networkCalls = 1 := by
  have hm := no_positive_miss cache cookie now (Or.inl h)
  rw [user_for_cookie_miss_eq cache (.resp 403 body) now cookie uc (Or.inr hm)]
  cases uc <;>
    simp [hub_request_and_store, check_age_of_absent cache cookie now h, h]

/-- Witness for C6: empty cache with `max_age = 300`, 403 at time 0: the
permission error is raised, an error-severity line is logged, and the cache
remains empty for `"abc"`. -/
theorem c6_forbidden_not_cached_witness :
    (ExpiringDict.init (Option UserModel) 300).values "abc" = none ∧
    (user_for_cookie (ExpiringDict.init (Option UserModel) 300)
      (.resp 403 ⟨"x"⟩) 0 "abc" true).result = .error .permissionFailure ∧
    (user_for_cookie (ExpiringDict.init (Option UserModel) 300)
      (.resp 403 ⟨"x"⟩) 0 "abc" true).logs =
      [.error "I do not have permission to verify cookies, my auth token may have expired"] ∧
    (user_for_cookie (ExpiringDict.init (Option UserModel) 300)
      (.resp 403 ⟨"x"⟩) 0 "abc" true).cache.values "abc" = none := by
  have h := c6_forbidden_not_cached (ExpiringDict.init (Option UserModel) 300)
    0 "abc" true ⟨"x"⟩ rfl
  exact ⟨rfl, h.1, h.2.1, h.2.2.1⟩

/-- Claim C1 fails on the code: `cachedNullCache` holds an unexpired cached
`None` verdict for `"abc"` (`max_age = 300`, stored at time 0, read at time
1), yet `user_for_cookie` with `use_cache = true` still issues a network
request — the `cached is not None` test makes a cached negative verdict
indistinguishable from a miss — and returns the fresh network verdict rather
than the cached one. -/
theorem c1_cached_null_not_served :
    (cachedNullCache.get "abc" 1).1 = some none ∧
    (user_for_cookie cachedNullCache (.resp 404 ⟨"x"⟩) 1 "abc" true).networkCalls = 1 ∧
    (user_for_cookie cachedNullCache (.resp 200 ⟨"carol"⟩) 1 "abc"
      true).networkCalls = 1 ∧
    (user_for_cookie cachedNullCache (.resp 200 ⟨"carol"⟩) 1 "abc"
      true).result = .ok (some ⟨"carol"⟩) := by
  have hval : cachedNullCache.values "abc" = some none := by
    simp [cachedNullCache, ExpiringDict.setItem, ExpiringDict.init]
  have hts : cachedNullCache.timestamps "abc" = some 0 := by
    simp [cachedNullCache, ExpiringDict.setItem, ExpiringDict.init]
  have hma : cachedNullCache.max_age = 300 := rfl
  have hkeep : cachedNullCache._check_age "abc" 1 = cachedNullCache := by
    unfold ExpiringDict._check_age
    rw [hval, hts]
    simp only [hma]
    norm_num
  have hmiss : cacheMiss cachedNullCache "abc" 1 = true := by
    unfold cacheMiss
    rw [get_fst, hkeep, hval]
  refine ⟨by rw [get_fst, hkeep, hval], ?_, ?_, ?_⟩
  · rw [user_for_cookie_miss_eq cachedNullCache (.resp 404 ⟨"x"⟩) 1 "abc" true
      (Or.inr hmiss)]
    simp [hub_request_networkCalls]
  · rw [user_for_cookie_miss_eq cachedNullCache (.resp 200 ⟨"carol"⟩) 1 "abc" true
      (Or.inr hmiss)]
    simp [hub_request_networkCalls]
  · rw [user_for_cookie_miss_eq cachedNullCache (.resp 200 ⟨"carol"⟩) 1 "abc" true
      (Or.inr hmiss)]
    simp [hub_request_and_store]

/-- Claim C7: `check_hub_user` with an unset (`None`) allow-list returns any
user model unchanged; with a set allow-list it returns the model exactly when
the model's name is in the list, and otherwise returns `None` while logging a
warning that names the rejected user. -/
theorem c7_check_hub_user (u : UserModel) (allowed : List String) :
    check_hub_user none (some u) = .ok (some u, []) ∧
    (u.name ∈ allowed →
      check_hub_user (some allowed) (some u) = .ok (some u, [])) ∧
    (u.name ∉ allowed →
      check_hub_user (some allowed) (some u) =
        .ok (none, [.warning ("Not allowing Hub user " ++ u.name)])) := by
  refine ⟨rfl, ?_, ?_⟩
  · intro h
    simp [check_hub_user, h]
  · intro h
    simp [check_hub_user, h]

/-- Witness for C7: with allow-list `["alice"]`, `"alice"` passes through and
`"bob"` is rejected with a warning naming him. -/
theorem c7_check_hub_user_witness :
    ("alice" ∈ ["alice"] ∧
      check_hub_user (some ["alice"]) (some ⟨"alice"⟩) =
        .ok (some ⟨"alice"⟩, [])) ∧
    ("bob" ∉ ["alice"] ∧
      check_hub_user (some ["alice"]) (some ⟨"bob"⟩) =
        .ok (none, [.warning ("Not allowing Hub user " ++ "bob")])) := by
  have hin : ("alice" : String) ∈ ["alice"] := by simp
  have hout : ("bob" : String) ∉ ["alice"] := by simp
  exact ⟨⟨hin, (c7_check_hub_user ⟨"alice"⟩ ["alice"]).2.1 hin⟩,
    ⟨hout, (c7_check_hub_user ⟨"bob"⟩ ["alice"]).2.2 hout⟩⟩

/-- On a non-`None` user model, `check_hub_user` never raises. -/
theorem check_hub_user_some_ok (hub_users : Option (List String))
    (u : UserModel) :
    ∃ r, check_hub_user hub_users (some u) = .ok r := by
  cases hub_users with
  | none => exact ⟨_, rfl⟩
  | some allowed =>
    by_cases h : u.name ∈ allowed
    · refine ⟨(some u, []), ?_⟩
      simp [check_hub_user, h]
    · refine ⟨(none, [.warning ("Not allowing Hub user " ++ u.name)]), ?_⟩
      simp [check_hub_user, h]

/-- Claim C9: `check_hub_user` does crash on a `None` model when an
allow-list is configured (the unguarded `user_model['name']` subscript), but
`get_current_user` only calls it on a non-`None` model, so the crash branch
is unreachable through `get_current_user` for every input. -/
theorem c9_crash_branch_unreachable :
    (∀ (handler : Handler) (hub_users : Option (List String))
      (cache : ExpiringDict (Option UserModel)) (world : HubResponse)
      (now : ℚ),
      (get_current_user handler hub_users cache world now).hasPyCrash = false) ∧
    check_hub_user (some ["alice"]) none = .error .noneSubscript := by
  refine ⟨?_, rfl⟩
  intro handler hub_users cache world now
  unfold get_current_user
  rcases hr : (get_user handler cache world now).result with e | u
  · simp [hr, GateOutcome.hasPyCrash]
  · cases u with
    | none => simp [hr, GateOutcome.hasPyCrash]
    | some v =>
      obtain ⟨r, hok⟩ := check_hub_user_some_ok hub_users v
      simp [hr, hok, GateOutcome.hasPyCrash]

/-- The `hub_request_and_store` step performs no cache reads of its own. -/
theorem hub_request_cacheLookups (cache : ExpiringDict (Option UserModel))
    (world : HubResponse) (now : ℚ) (cookie : String) (lookups : Nat) :
    (hub_request_and_store cache world now cookie lookups).cacheLookups =
      lookups := by
  unfold hub_request_and_store
  cases world with
  | connError => rfl
  | resp status body => dsimp only; split_ifs <;> rfl

/-- A `user_for_cookie` call performs at most one network request and at most one
cache read. -/
theorem user_for_cookie_calls_le (cache : ExpiringDict (Option UserModel))
    (world : HubResponse) (now : ℚ) (cookie : String) (uc : Bool) :
    (user_for_cookie cache world now cookie uc).networkCalls ≤ 1 ∧
    (user_for_cookie cache world now cookie uc).cacheLookups ≤ 1 := by
  unfold user_for_cookie
  cases uc with
  | false =>
    simp [hub_request_networkCalls, hub_request_cacheLookups]
  | true =>
    rcases hval : (cache.get cookie now).1 with _ | x
    · simp [hval, hub_request_networkCalls, hub_request_cacheLookups]
    · cases x with
      | none => simp [hval, hub_request_networkCalls, hub_request_cacheLookups]
      | some u => simp [hval]

/-- If `_cached_hub_user` is already set, `get_user` returns the memoized
value and performs no cache read and no network request. -/
theorem get_user_cached (handler : Handler)
    (cache : ExpiringDict (Option UserModel)) (world : HubResponse) (now : ℚ)
    (v : Option UserModel) (h : handler._cached_hub_user = some v) :
    get_user handler cache world now =
      { result := .ok v, handler := handler, cache := cache,
        networkCalls := 0, cacheLookups := 0, logs := [] } := by
  unfold get_user
  rw [h]

/-- Starting from an unset `_cached_hub_user`, `get_user` always sets it: to
the returned value on success, and to `None` when `user_for_cookie` raised. -/
theorem get_user_after (handler : Handler)
    (cache : ExpiringDict (Option UserModel)) (world : HubResponse) (now : ℚ)
    (h : handler._cached_hub_user = none) :
    (∃ u, (get_user handler cache world now).result = .ok u ∧
      (get_user handler cache world now).handler._cached_hub_user = some u) ∨
    (∃ e, (get_user handler cache world now).result = .error e ∧
      (get_user handler cache world now).handler._cached_hub_user =
        some none) := by
  obtain ⟨ck, mu⟩ := handler
  have h' : mu = none := h
  subst h'
  rcases ck with _ | c
  · exact Or.inl ⟨none, rfl, rfl⟩
  · by_cases hce : c = ""
    · subst hce
      exact Or.inl ⟨none, rfl, rfl⟩
    · unfold get_user
      dsimp only
      rw [if_pos hce]
      rcases hr : (user_for_cookie cache world now c true).result with e | u
      · refine Or.inr ⟨e, ?_, ?_⟩ <;> simp only [hr]
      · refine Or.inl ⟨u, ?_, ?_⟩ <;> simp only [hr]

/-- A `get_user` call performs at most one cache read and at most one network
request. -/
theorem get_user_calls_le (handler : Handler)
    (cache : ExpiringDict (Option UserModel)) (world : HubResponse)
    (now : ℚ) :
    (get_user handler cache world now).networkCalls ≤ 1 ∧
    (get_user handler cache world now).cacheLookups ≤ 1 := by
  obtain ⟨ck, mu⟩ := handler
  rcases mu with _ | v
  · rcases ck with _ | c
    · exact ⟨Nat.zero_le 1, Nat.zero_le 1⟩
    · by_cases hce : c = ""
      · subst hce
        exact ⟨Nat.zero_le 1, Nat.zero_le 1⟩
      · unfold get_user
        dsimp only
        rw [if_pos hce]
        rcases hr : (user_for_cookie cache world now c true).result with e | u <;>
          · refine ⟨?_, ?_⟩ <;> simp only [hr] <;>
              first
              | exact (user_for_cookie_calls_le cache world now c true).1
              | exact (user_for_cookie_calls_le cache world now c true).2
  · exact ⟨Nat.zero_le 1, Nat.zero_le 1⟩

/-- With a falsy cookie (`None` or `""`), `get_user` memoizes `None`, issues
no cache read and no network request, and logs the debug line. -/
theorem get_user_no_cookie (handler : Handler)
    (cache : ExpiringDict (Option UserModel)) (world : HubResponse) (now : ℚ)
    (h : handler._cached_hub_user = none)
    (hc : cookieTruthy handler.cookie = false) :
    get_user handler cache world now =
      { result := .ok none,
        handler := { handler with _cached_hub_user := some none },
        cache := cache, networkCalls := 0, cacheLookups := 0,
        logs := [.debug "No token cookie"] } := by
  obtain ⟨ck, mu⟩ := handler
  have h' : mu = none := h
  subst h'
  rcases ck with _ | c
  · rfl
  · have hceq : c = "" := by
      by_contra hne
      unfold cookieTruthy at hc
      simp [hne] at hc
    subst hceq
    rfl

/-- Claim C8: starting from an unset memo slot, the first `get_user` call
performs at most one cache read and at most one network request and memoizes
its result on the handler; the second call on the resulting handler performs
zero cache reads and zero network requests, changes nothing, and returns
the first call's value whenever the first call returned one; and with a falsy
cookie the first call already returns `None` with zero cache reads and zero
network requests. -/
theorem c8_get_user_memoization (handler : Handler)
    (cache : ExpiringDict (Option UserModel)) (world world' : HubResponse)
    (now now' : ℚ) (h : handler._cached_hub_user = none) :
    (get_user (get_user handler cache world now).handler
      (get_user handler cache world now).cache world' now').networkCalls = 0 ∧
    (get_user (get_user handler cache world now).handler
      (get_user handler cache world now).cache world' now').cacheLookups = 0 ∧
    (get_user (get_user handler cache world now).handler
      (get_user handler cache world now).cache world' now').handler =
      (get_user handler cache world now).handler ∧
    (get_user (get_user handler cache world now).handler
      (get_user handler cache world now).cache world' now').cache =
      (get_user handler cache world now).cache ∧
    (∀ u, (get_user handler cache world now).result = .ok u →
      (get_user (get_user handler cache world now).handler
        (get_user handler cache world now).cache world' now').result = .ok u) ∧
    (get_user handler cache world now).networkCalls ≤ 1 ∧
    (get_user handler cache world now).cacheLookups ≤ 1 ∧
    (cookieTruthy handler.cookie = false →
      (get_user handler cache world now).result = .ok none ∧
      (get_user handler cache world now).networkCalls = 0 ∧
      (get_user handler cache world now).cacheLookups = 0) := by
  have hmemo : ∃ v, (get_user handler cache world now).handler._cached_hub_user =
      some v ∧ ∀ u, (get_user handler cache world now).result = .ok u → u = v := by
    rcases get_user_after handler cache world now h with ⟨u, hru, hmu⟩ | ⟨e, hre, hme⟩
    · exact ⟨u, hmu, fun u' hu' => by rw [hru] at hu'; cases hu'; rfl⟩
    · exact ⟨none, hme, fun u' hu' => by rw [hre] at hu'; cases hu'⟩
  obtain ⟨v, hmv, hres⟩ := hmemo
  have h2 := get_user_cached (get_user handler cache world now).handler
    (get_user handler cache world now).cache world' now' v hmv
  rw [h2]
  refine ⟨rfl, rfl, rfl, rfl, ?_, (get_user_calls_le handler cache world now).1,
    (get_user_calls_le handler cache world now).2, ?_⟩
  · intro u hu
    rw [hres u hu]
  · intro hct
    rw [get_user_no_cookie handler cache world now h hct]
    exact ⟨rfl, rfl, rfl⟩

/-- Witness for C8: a fresh handler with cookie `"abc"` resolved against a
200 response; the second call touches neither the cache nor the network; a
fresh handler with no cookie at all returns `None` with zero lookups. -/
theorem c8_get_user_memoization_witness :
    (Handler.mk (some "abc") none)._cached_hub_user = none ∧
    (get_user
      (get_user ⟨some "abc", none⟩ (ExpiringDict.init (Option UserModel) 300)
        (.resp 200 ⟨"alice"⟩) 0).handler
      (get_user ⟨some "abc", none⟩ (ExpiringDict.init (Option UserModel) 300)
        (.resp 200 ⟨"alice"⟩) 0).cache .connError 50).networkCalls = 0 ∧
    (get_user
      (get_user ⟨some "abc", none⟩ (ExpiringDict.init (Option UserModel) 300)
        (.resp 200 ⟨"alice"⟩) 0).handler
      (get_user ⟨some "abc", none⟩ (ExpiringDict.init (Option UserModel) 300)
        (.resp 200 ⟨"alice"⟩) 0).cache .connError 50).cacheLookups = 0 ∧
    (cookieTruthy (Handler.mk none none).cookie = false ∧
      (get_user ⟨none, none⟩ (ExpiringDict.init (Option UserModel) 300)
        (.resp 200 ⟨"alice"⟩) 0).result = .ok none ∧
      (get_user ⟨none, none⟩ (ExpiringDict.init (Option UserModel) 300)
        (.resp 200 ⟨"alice"⟩) 0).networkCalls = 0) := by
  have h1 := c8_get_user_memoization ⟨some "abc", none⟩
    (ExpiringDict.init (Option UserModel) 300) (.resp 200 ⟨"alice"⟩) .connError
    0 50 rfl
  have h2 := c8_get_user_memoization ⟨none, none⟩
    (ExpiringDict.init (Option UserModel) 300) (.resp 200 ⟨"alice"⟩) .connError
    0 50 rfl
  have h3 := h2.2.2.2.2.2.2.2 rfl
  exact ⟨rfl, h1.1, h1.2.1, rfl, h3.1, h3.2.1⟩

/-- Claim C10: `get_user` memoizes `None` on the handler before verifying, so
if `user_for_cookie` raised any failure, every subsequent `get_user` call on
the same handler returns `None` — without re-raising the failure and with
zero cache reads and zero network requests. -/
theorem c10_error_then_memoized_none (handler : Handler)
    (cache : ExpiringDict (Option UserModel)) (world world' : HubResponse)
    (now now' : ℚ) (e : HubAuthError)
    (h : handler._cached_hub_user = none)
    (herr : (get_user handler cache world now).result = .error e) :
    get_user (get_user handler cache world now).handler
      (get_user handler cache world now).cache world' now' =
      { result := .ok none,
        handler := (get_user handler cache world now).handler,
        cache := (get_user handler cache world now).cache,
        networkCalls := 0, cacheLookups := 0, logs := [] } := by
  rcases get_user_after handler cache world now h with ⟨u, hru, _⟩ | ⟨e', _, hme⟩
  · rw [hru] at herr
    cases herr
  · exact get_user_cached _ _ _ _ none hme

/-- Witness for C10: a fresh handler with cookie `"abc"` against a connection
failure: the first call raises, the second call returns `None` with zero
lookups. -/
theorem c10_error_then_memoized_none_witness :
    (Handler.mk (some "abc") none)._cached_hub_user = none ∧
    (get_user ⟨some "abc", none⟩ (ExpiringDict.init (Option UserModel) 300)
      .connError 0).result = .error .connectionFailure ∧
    get_user
      (get_user ⟨some "abc", none⟩ (ExpiringDict.init (Option UserModel) 300)
        .connError 0).handler
      (get_user ⟨some "abc", none⟩ (ExpiringDict.init (Option UserModel) 300)
        .connError 0).cache (.resp 200 ⟨"alice"⟩) 50 =
      { result := .ok none,
        handler := (get_user ⟨some "abc", none⟩
          (ExpiringDict.init (Option UserModel) 300) .connError 0).handler,
        cache := (get_user ⟨some "abc", none⟩
          (ExpiringDict.init (Option UserModel) 300) .connError 0).cache,
        networkCalls := 0, cacheLookups := 0, logs := [] } := by
  have hu : (user_for_cookie (ExpiringDict.init (Option UserModel) 300)
      .connError 0 "abc" true).result = .error .connectionFailure := by
    rw [user_for_cookie_miss_eq (ExpiringDict.init (Option UserModel) 300)
      .connError 0 "abc" true
      (Or.inr (no_positive_miss _ "abc" 0 (Or.inl rfl)))]
    rfl
  have herr : (get_user ⟨some "abc", none⟩
      (ExpiringDict.init (Option UserModel) 300) .connError 0).result =
      .error .connectionFailure := by
    unfold get_user
    simp only [ne_eq]
    rw [if_pos (by decide : ¬ ("abc" = ""))]
    rw [hu]
  exact ⟨rfl, herr,
    c10_error_then_memoized_none ⟨some "abc", none⟩
      (ExpiringDict.init (Option UserModel) 300) .connError (.resp 200 ⟨"alice"⟩)
      0 50 .connectionFailure rfl herr⟩

end JupyterHubAuth
